import Mathlib

/-!
Verification of the visionly.ai repository against its specification.

The repository's frontend route `app/routes/api.backend.ts` is embedded
below: the `BACKEND_CONFIG` table, the Remix `action` handler, and the
request it sends to a backend service.  The asynchronous job engine
(orchestrator, job store, aggregator) that the specification describes is
not part of the checked sources; where a claim is decided by that missing
code it is modelled from the specification, and each such definition says
so in its doc comment.
-/

namespace Visionly

/-- A JSON value, used for adapter reply payloads (`response.data` in the
route is passed through opaquely). -/
inductive Json where
  | null : Json
  | bool : Bool → Json
  | num : Int → Json
  | str : String → Json
  | arr : List Json → Json
  | obj : List (String × Json) → Json
deriving Repr

/-- The environment variables read by `BACKEND_CONFIG` in
`app/routes/api.backend.ts` (lines 20–45): one base-URL variable per
source, each possibly unset. -/
structure Env where
  FINANCE_API_URL : Option String
  NEWS_API_URL : Option String
  TRENDS_API_URL : Option String
  META_API_URL : Option String
  TIKTOK_API_URL : Option String
  WEATHER_API_URL : Option String
deriving Repr, DecidableEq

/-- One entry of `BACKEND_CONFIG`: the source lines 20–45 give each service
exactly the fields `url` (from `process.env.<SRC>_API_URL || ""`) and
`description`.  No credential field exists. -/
structure ServiceConfig where
  url : String
  description : String
deriving Repr, DecidableEq

/-- The field names of a `BACKEND_CONFIG` entry, exactly as written in the
source object literal (lines 21–24 and analogous). -/
def serviceConfigFields : List String := ["url", "description"]

/-- The own properties of the `BACKEND_CONFIG` object literal at
`app/routes/api.backend.ts` lines 20–45: exactly six entries, one per
source.  `url` is `process.env.X || ""`: an unset variable gives the
empty string.  This is only the object's own-key table; the runtime
property access at line 62 also walks the prototype chain — see
`serviceLookup`. -/
def BACKEND_CONFIG (env : Env) : String → Option ServiceConfig
  | "finance" => some ⟨env.FINANCE_API_URL.getD "", "Financial data and currency analysis"⟩
  | "news" => some ⟨env.NEWS_API_URL.getD "", "News sentiment analysis and market insights"⟩
  | "trends" => some ⟨env.TRENDS_API_URL.getD "", "Google Trends and search analytics"⟩
  | "meta" => some ⟨env.META_API_URL.getD "", "Meta/Facebook social media analytics"⟩
  | "tiktok" => some ⟨env.TIKTOK_API_URL.getD "", "TikTok engagement and trend analysis"⟩
  | "weather" => some ⟨env.WEATHER_API_URL.getD "", "Weather data and forecasting"⟩
  | _ => none

/-- The own keys of `BACKEND_CONFIG`, in source order. -/
def recognizedSources : List String :=
  ["finance", "news", "trends", "meta", "tiktok", "weather"]

/-- The property names `BACKEND_CONFIG` inherits from `Object.prototype`:
a plain object literal answers property access for these names with an
inherited function (or, for `__proto__`, an object), every one of them
truthy. -/
def objectPrototypeProps : List String :=
  ["constructor", "hasOwnProperty", "isPrototypeOf", "propertyIsEnumerable",
    "toLocaleString", "toString", "valueOf", "__proto__",
    "__defineGetter__", "__defineSetter__", "__lookupGetter__", "__lookupSetter__"]

/-- What the property access `BACKEND_CONFIG[service]` at line 62
evaluates to: an own entry's config object, a truthy value inherited from
`Object.prototype` (which has no `url` property), or `undefined`. -/
inductive LookupResult where
  | config (cfg : ServiceConfig) : LookupResult
  | protoProp : LookupResult
  | missing : LookupResult
deriving Repr

/-- The runtime semantics of `BACKEND_CONFIG[service as keyof typeof
BACKEND_CONFIG]` (line 62): raw property access on a plain object — an
own key yields its entry, a name inherited from `Object.prototype` yields
that truthy inherited value, and anything else yields `undefined`.  Only
the last makes the `if (!serviceConfig)` guard at line 63 fire. -/
def serviceLookup (env : Env) (service : String) : LookupResult :=
  match BACKEND_CONFIG env service with
  | some cfg => .config cfg
  | none => if service ∈ objectPrototypeProps then .protoProp else .missing

/-- The body of the `axios.post` call at lines 68–71: the object literal
`{ query: query, timestamp: new Date().toISOString() }`. -/
structure AdapterRequest where
  query : String
  timestamp : String
deriving Repr, DecidableEq

/-- The field names of the adapter request body, exactly as written in the
object literal at lines 69–70. -/
def adapterRequestFields : List String := ["query", "timestamp"]

/-- A value thrown by the failed `axios.post` call, as the `catch` block at
lines 78–84 distinguishes it: an `Error` instance with a `message`, or any
other thrown value. -/
inductive ThrownValue where
  | errorObj (message : String) : ThrownValue
  | otherValue : ThrownValue
deriving Repr, DecidableEq

/-- `error instanceof Error ? error.message : "Unknown error"`
(line 82). -/
def thrownDetails : ThrownValue → String
  | .errorObj m => m
  | .otherValue => "Unknown error"

/-- The outcome of the awaited `axios.post` call: a resolved response whose
`data` is a JSON payload, or a rejection with a thrown value. -/
def AdapterOutcome := Except ThrownValue Json

/-- The JSON body returned by the `action` handler: either the success
object `{ success: true, data, service }` (lines 73–77) or an error object
`{ error, details? }` (lines 63–64 and 80–83). -/
inductive ActionBody where
  | success (data : Json) (service : String) : ActionBody
  | failure (message : String) (details : Option String) : ActionBody
deriving Repr

/-- A `json(body, { status })` response of the `action` handler; `json(body)`
alone has status 200. -/
structure ActionResult where
  body : ActionBody
  status : Nat
deriving Repr

/-- The `action` handler of `app/routes/api.backend.ts` (lines 55–85).
`service` and `query` come from the submitted form data; `adapter` stands
for the network: it maps the posted URL and body to the outcome of the
awaited `axios.post`; `now` is `new Date().toISOString()`.  The guard at
line 63 fires only when the property access yields `undefined`, returning
the 400 validation body; an own entry flows into the `try`, where the
handler awaits the adapter call and returns either the success body with
the adapter's data or, from the `catch` block, a 500 error body.  A name
inherited from `Object.prototype` is truthy, slips past the guard, and
reaches `axios.post(serviceConfig.url, …)` with `url === undefined`:
no request URL can be formed, so the call rejects with an `Error`
(`"Invalid URL"`) before reaching any provider, landing in the same
`catch` block with a 500. -/
def action (env : Env) (service query : String)
    (adapter : String → AdapterRequest → AdapterOutcome) (now : String) :
    ActionResult :=
  match serviceLookup env service with
  | .missing => ⟨.failure "Invalid service selected" none, 400⟩
  | .config serviceConfig =>
    match adapter serviceConfig.url ⟨query, now⟩ with
    | .ok data => ⟨.success data service, 200⟩
    | .error e =>
      ⟨.failure "Failed to connect to backend service" (some (thrownDetails e)), 500⟩
  | .protoProp =>
    ⟨.failure "Failed to connect to backend service"
        (some (thrownDetails (.errorObj "Invalid URL"))), 500⟩

/-- The adapter call issued by `action` with a usable URL: the posted URL
(`serviceConfig.url`) and body (`{query, timestamp}`) when the service is
an own `BACKEND_CONFIG` entry; `none` when the guard fired or a
prototype-chain hit left the posted URL `undefined`. -/
def actionRequest (env : Env) (service query now : String) :
    Option (String × AdapterRequest) :=
  match serviceLookup env service with
  | .config serviceConfig => some (serviceConfig.url, ⟨query, now⟩)
  | _ => none

/-- Whether the handler reaches the `axios.post` call at line 68, i.e.
the guard at line 63 did not fire: true for own `BACKEND_CONFIG` entries
and for names inherited from `Object.prototype`, false only when the
property access yields `undefined`. -/
def attemptsAdapterCall (env : Env) (service : String) : Bool :=
  match serviceLookup env service with
  | .missing => false
  | _ => true

/-! ## The asynchronous job engine, modelled from the specification

The orchestrator, job store and aggregator live in the repository's
backend (`backend_api_backup/frontend_api` per the README), which is not
among the checked sources; the definitions below model them from the
specification (§3–§4.5, §7). -/

/-- Modelled from the spec (§3): a per-source state is `pending`, `ok`,
`error` or `timeout`. -/
inductive SourceState where
  | pending : SourceState
  | ok : SourceState
  | error : SourceState
  | timeout : SourceState
deriving Repr, DecidableEq

/-- Modelled from the spec (§3 `SourceResult`): per-source record with
state, payload when `ok`, failure reason when `error`/`timeout`, and a
diagnostic latency. -/
structure SourceResult where
  source : String
  state : SourceState
  data : Option Json
  error : Option String
  latencyMs : Nat
deriving Repr

/-- Modelled from the spec (§3): job status
`pending → running → {completed | failed | timed_out}`. -/
inductive JobStatus where
  | pending : JobStatus
  | running : JobStatus
  | completed : JobStatus
  | failed : JobStatus
  | timed_out : JobStatus
deriving Repr, DecidableEq

/-- Modelled from the spec (§6): the commerce snapshot carried by a
submission — `Products`, `Collections` and related entities; its internal
schema is out of scope, so entities are kept abstract. -/
structure CommerceSnapshot where
  products : List String
  collections : List String
deriving Repr, DecidableEq

/-- Modelled from the spec (§3, §6): a submitted query — the requested
source names, the commerce snapshot (`none` when the serialized structure
is malformed per §6), and the natural-language text. -/
structure Query where
  requestedSources : List String
  snapshot : Option CommerceSnapshot
  text : String
deriving Repr, DecidableEq

/-- Modelled from the spec (§4.1 `submit`): a query is valid when it names
at least one recognized requested source and its commerce snapshot is
well-formed. -/
def validQuery (q : Query) : Bool :=
  q.requestedSources.any (fun s => s ∈ recognizedSources) && q.snapshot.isSome

/-- Modelled from the spec (§3 derived metrics): normalized per-source
metrics; the concrete statistical formulas are out of scope (§1
non-goals), so a single representative score is kept. -/
structure SourceMetrics where
  score : Int
deriving Repr, DecidableEq

/-- Modelled from the spec (§4.3 step 1): the per-source summarizer,
`summarize(data) -> metrics`; it fails (`none`) on malformed data, in
which case that source's contribution is dropped.  The scoring formula is
out of scope, so a fixed representative reduction is used. -/
def summarize (data : Json) : Option SourceMetrics :=
  match data with
  | .null => none
  | .bool b => some ⟨if b then 1 else 0⟩
  | .num n => some ⟨n⟩
  | .str s => some ⟨s.length⟩
  | .arr xs => some ⟨xs.length⟩
  | .obj fields => some ⟨fields.length⟩

/-- Modelled from the spec (§3 `CombinedInsight`): per-source summaries,
cross-source correlations, ranked recommendations, the `degraded` flag,
and an explicitly time-stamped generation field. -/
structure CombinedInsight where
  perSourceSummary : List (String × SourceMetrics)
  crossSourceCorrelations : List (String × String × Int)
  recommendations : List String
  degraded : Bool
  generatedAt : String
deriving Repr

/-- Modelled from the spec (§4.3 step 1): summaries of the successful
sources, in `sourceResults` order; non-`ok` entries and entries whose
summarizer fails are dropped. -/
def sourceSummaries (rs : List SourceResult) : List (String × SourceMetrics) :=
  rs.filterMap (fun r =>
    match r.state, r.data with
    | .ok, some d => (summarize d).map (fun m => (r.source, m))
    | _, _ => none)

/-- Modelled from the spec (§4.3 step 2): a correlation signal for every
pair of successfully summarized sources; sources with no data are
excluded from pairing.  The signal formula is out of scope; a
representative product is used. -/
def crossCorrelations (summaries : List (String × SourceMetrics)) :
    List (String × String × Int) :=
  match summaries with
  | [] => []
  | (s, m) :: rest =>
    rest.map (fun p => (s, p.1, m.score * p.2.score)) ++ crossCorrelations rest

/-- Modelled from the spec (§4.3 step 3): a candidate insight with a
confidence score and the number of sources supporting it. -/
structure Candidate where
  text : String
  confidence : Int
  sourceCount : Nat
deriving Repr, DecidableEq

/-- Modelled from the spec (§4.3 step 3): one candidate per summarized
source (source-count 1), plus one corroborated candidate per correlated
pair (source-count 2, up-weighted relative to single-source candidates). -/
def candidateInsights (summaries : List (String × SourceMetrics)) : List Candidate :=
  summaries.map (fun p => ⟨p.1 ++ " insight", p.2.score, 1⟩) ++
    (crossCorrelations summaries).map
      (fun c => ⟨c.1 ++ "+" ++ c.2.1 ++ " insight", 2 * c.2.2, 2⟩)

/-- Modelled from the spec (§3 `recommendations`): candidates ranked by
confidence descending, ties broken by supporting source-count
descending. -/
def rankCandidates (cs : List Candidate) : List Candidate :=
  cs.mergeSort (fun a b =>
    b.confidence < a.confidence ||
      (a.confidence == b.confidence && b.sourceCount ≤ a.sourceCount))

/-- Modelled from the spec (§4.3): the Aggregator — a pure function of the
terminal `sourceResults` mapping, except for the explicitly time-stamped
`generatedAt` field, which records the aggregation time `now`. -/
def aggregate (rs : List SourceResult) (now : String) : CombinedInsight :=
  { perSourceSummary := sourceSummaries rs
    crossSourceCorrelations := crossCorrelations (sourceSummaries rs)
    recommendations := (rankCandidates (candidateInsights (sourceSummaries rs))).map Candidate.text
    degraded := rs.any (fun r => r.state ≠ .ok)
    generatedAt := now }

/-- Modelled from the spec (§3 `Job`): the durable job record. -/
structure Job where
  id : String
  status : JobStatus
  progress : Nat
  query : Query
  sourceResults : List SourceResult
  combinedInsight : Option CombinedInsight
  createdAt : String
  completedAt : Option String

/-- Modelled from the spec (§4.5): the Job Store, keyed by job id. -/
abbrev JobStore := List (String × Job)

/-- Modelled from the spec (§7): the error taxonomy surfaced synchronously
to callers — `InvalidQuery` on malformed submissions, `JobNotFound` on
unknown-id lookups. -/
inductive ApiError where
  | invalidQuery : ApiError
  | jobNotFound : ApiError
deriving Repr, DecidableEq

/-- Modelled from the spec (§6, §7): the HTTP status carried by a
synchronous error — a 4xx on validation failure, 404 on unknown
`job_id`. -/
def apiErrorStatus : ApiError → Nat
  | .invalidQuery => 400
  | .jobNotFound => 404

/-- Modelled from the spec (§3): the initial `SourceResult` for a
requested source — `pending`, no data, no error. -/
def initialSourceResult (s : String) : SourceResult :=
  ⟨s, .pending, none, none, 0⟩

/-- Modelled from the spec (§3, §4.1): the job record created at
submission — status `pending`, zero progress, one `pending` entry per
requested source, no insight, no completion time. -/
def mkJob (id : String) (q : Query) (now : String) : Job :=
  ⟨id, .pending, 0, q, q.requestedSources.map initialSourceResult, none, now, none⟩

/-- Modelled from the spec (§4.1 `submit`): validate the query, failing
with `InvalidQuery` and touching no state otherwise; on success create the
job record in `pending` and return the fresh id.  Adapter dispatch happens
asynchronously afterwards and contributes nothing to the returned
value. -/
def submit (store : JobStore) (q : Query) (newId now : String) :
    Except ApiError (String × JobStore) :=
  if validQuery q then .ok (newId, (newId, mkJob newId q now) :: store)
  else .error .invalidQuery

/-- Modelled from the spec (§4.5 `get`): look a job up by id, failing with
`JobNotFound` on an unknown id. -/
def jobStoreGet (store : JobStore) (id : String) : Except ApiError Job :=
  match store.find? (fun p => p.1 == id) with
  | some p => .ok p.2
  | none => .error .jobNotFound

/-- Modelled from the spec (§4.1 `status`): the polling operation — it
reads the latest committed snapshot and returns the store unchanged (it
never mutates state), failing with `JobNotFound` on an unknown id. -/
def statusOp (store : JobStore) (id : String) : Except ApiError Job × JobStore :=
  (jobStoreGet store id, store)

/-- Modelled from the spec (§4.1, glossary): whether a per-source state is
terminal (`ok`, `error` or `timeout`). -/
def isTerminalSource : SourceState → Bool
  | .pending => false
  | _ => true

/-- Modelled from the spec (§4.1 `dispatch`): the number of requested
sources that have reached a terminal per-source state. -/
def completedCount (rs : List SourceResult) : Nat :=
  rs.countP (fun r => isTerminalSource r.state)

/-- Modelled from the spec (§4.1 `dispatch`): the number of sources whose
fetch succeeded. -/
def succeededCount (rs : List SourceResult) : Nat :=
  rs.countP (fun r => r.state == .ok)

/-- Modelled from the spec (§4.1 `dispatch`):
`progress = round(100 * completedCount / totalSources)`, half rounded up,
in integer arithmetic. -/
def progressOf (completed total : Nat) : Nat :=
  (200 * completed + total) / (2 * total)

/-- Modelled from the spec (§4.1 `dispatch`): the recomputed progress of a
job's source results. -/
def jobProgress (rs : List SourceResult) : Nat :=
  progressOf (completedCount rs) rs.length

/-- Modelled from the spec (§4.1, §4.2): how one adapter call resolves —
success with a payload, a provider error with a structured reason, or a
per-source timeout. -/
inductive TerminalOutcome where
  | fetched (data : Json) : TerminalOutcome
  | failed (reason : String) : TerminalOutcome
  | timedOut (reason : String) : TerminalOutcome
deriving Repr

/-- Modelled from the spec (§3, §4.1): the `SourceResult` recorded when an
adapter call resolves. -/
def applyOutcome (o : TerminalOutcome) (latency : Nat) (r : SourceResult) : SourceResult :=
  match o with
  | .fetched d => { r with state := .ok, data := some d, latencyMs := latency }
  | .failed reason => { r with state := .error, error := some reason, latencyMs := latency }
  | .timedOut reason => { r with state := .timeout, error := some reason, latencyMs := latency }

/-- Modelled from the spec (§4.1 `dispatch`): record one resolved adapter
call — the named source's entry is updated if it is still `pending`;
terminal per-source entries are final. -/
def resolveSource (rs : List SourceResult) (name : String) (o : TerminalOutcome)
    (latency : Nat) : List SourceResult :=
  rs.map (fun r =>
    if r.source == name && r.state == .pending then applyOutcome o latency r else r)

/-- Modelled from the spec (§4.1 `dispatch`): a sequence of resolved
adapter calls applied to a job's source results in arrival order. -/
def applyResolutions (rs : List SourceResult)
    (updates : List (String × TerminalOutcome × Nat)) : List SourceResult :=
  updates.foldl (fun acc u => resolveSource acc u.1 u.2.1 u.2.2) rs

/-- Modelled from the spec (§4.1 `dispatch`): whether every requested
source has reached a terminal per-source state. -/
def allSourcesTerminal (rs : List SourceResult) : Bool :=
  rs.all (fun r => isTerminalSource r.state)

/-- Modelled from the spec (§4.1 `dispatch`, §3 invariants): once every
source is terminal the Aggregator runs and fixes the job's terminal
status — `completed` with the combined insight when at least one source
succeeded, `failed` with no insight when zero did; `completedAt` is set on
this first terminal transition. -/
def finalizeJob (job : Job) (now : String) : Job :=
  if 1 ≤ succeededCount job.sourceResults then
    { job with
        status := .completed
        progress := 100
        combinedInsight := some (aggregate job.sourceResults now)
        completedAt := some now }
  else
    { job with
        status := .failed
        progress := 100
        combinedInsight := none
        completedAt := some now }

/-- An environment with every base-URL variable unset: each configured
`url` is then the empty string (`process.env.X || ""`). -/
def env0 : Env := ⟨none, none, none, none, none, none⟩

/-- An environment with every base-URL variable set. -/
def envEx : Env :=
  ⟨some "https://finance.example", some "https://news.example",
    some "https://trends.example", some "https://meta.example",
    some "https://tiktok.example", some "https://weather.example"⟩

/-- A concrete valid query used to instantiate theorems. -/
def sampleQuery : Query :=
  ⟨["finance", "news"], some ⟨["p1"], ["c1"]⟩, "analyze my store"⟩

/-- A concrete job whose sources are all terminal, one `ok` and one
`error`. -/
def jobOkErr : Job :=
  ⟨"j1", .running, 50, sampleQuery,
    [⟨"finance", .ok, some (.num 5), none, 50⟩,
      ⟨"news", .error, none, some "Unreachable", 2000⟩],
    none, "t0", none⟩

/-- A concrete job whose sources are all terminal and none succeeded. -/
def jobAllFail : Job :=
  ⟨"j2", .running, 100, sampleQuery,
    [⟨"finance", .error, none, some "RateLimited", 10⟩,
      ⟨"news", .timeout, none, some "per-source timeout", 2000⟩],
    none, "t0", none⟩

/-! ## Helper lemmas -/

/-- An own `BACKEND_CONFIG` entry is what the property access finds. -/
theorem serviceLookup_config {env : Env} {service : String} {cfg : ServiceConfig}
    (h : BACKEND_CONFIG env service = some cfg) :
    serviceLookup env service = .config cfg := by
  simp [serviceLookup, h]

/-- Recording one resolved adapter call never lowers the number of
terminal sources. -/
theorem completedCount_resolve (rs : List SourceResult) (n : String)
    (o : TerminalOutcome) (lat : Nat) :
    completedCount rs ≤ completedCount (resolveSource rs n o lat) := by
  unfold completedCount resolveSource
  rw [List.countP_map]
  apply List.countP_mono_left
  intro r hr hp
  simp only [Function.comp_apply]
  by_cases hc : (r.source == n && r.state == SourceState.pending) = true
  · exfalso
    simp only [Bool.and_eq_true, beq_iff_eq] at hc
    rw [hc.2] at hp
    simp [isTerminalSource] at hp
  · rw [if_neg hc]
    exact hp

/-- Recording one resolved adapter call preserves the key set (its
cardinality in particular). -/
theorem resolve_length (rs : List SourceResult) (n : String)
    (o : TerminalOutcome) (lat : Nat) :
    (resolveSource rs n o lat).length = rs.length := by
  simp [resolveSource]

/-- `progressOf` is monotone in the completed count. -/
theorem progressOf_mono {c d t : Nat} (h : c ≤ d) : progressOf c t ≤ progressOf d t :=
  Nat.div_le_div_right (by omega)

/-- `progressOf` never exceeds 100 when at most `total` sources are
complete. -/
theorem progressOf_le_100 {c t : Nat} (h : c ≤ t) : progressOf c t ≤ 100 := by
  rcases Nat.eq_zero_or_pos t with ht | ht
  · subst ht
    simp [progressOf]
  · exact Nat.le_of_lt_succ (Nat.div_lt_of_lt_mul (by omega))

/-- A job's recomputed progress is at most 100. -/
theorem jobProgress_le_100 (rs : List SourceResult) : jobProgress rs ≤ 100 :=
  progressOf_le_100 (List.countP_le_length _)

/-- One resolved adapter call never lowers the recomputed progress. -/
theorem jobProgress_resolve (rs : List SourceResult) (n : String)
    (o : TerminalOutcome) (lat : Nat) :
    jobProgress rs ≤ jobProgress (resolveSource rs n o lat) := by
  unfold jobProgress
  rw [resolve_length]
  exact progressOf_mono (completedCount_resolve rs n o lat)

/-! ## Claims -/

/-- C1 (counterexample): in the checked submission handler (`action` in
`app/routes/api.backend.ts`), the value returned to the caller does depend
on the result of the adapter fetch — at one and the same valid submission,
two different adapter outcomes yield two different responses, so the
handler does not return before the adapter call resolves. -/
theorem c1_counterexample :
    action env0 "finance" "q" (fun _ _ => .ok (.str "payload")) "t0" ≠
      action env0 "finance" "q" (fun _ _ => .error (.errorObj "down")) "t0" := by
  simp [action, serviceLookup, BACKEND_CONFIG]

/-- C1 (amended): for every valid submission, the `action` handler awaits
the adapter call and its response embeds the adapter's result: a resolved
fetch yields the 200 success body carrying the adapter's data, a rejected
fetch yields the 500 error body; no job record is created and nothing is
dispatched asynchronously. -/
theorem c1_action_embeds_adapter_result (env : Env) (service query now : String)
    (adapter : String → AdapterRequest → AdapterOutcome) (cfg : ServiceConfig)
    (h : BACKEND_CONFIG env service = some cfg) :
    (∀ d, adapter cfg.url ⟨query, now⟩ = .ok d →
      action env service query adapter now = ⟨.success d service, 200⟩) ∧
    (∀ e, adapter cfg.url ⟨query, now⟩ = .error e →
      action env service query adapter now =
        ⟨.failure "Failed to connect to backend service" (some (thrownDetails e)), 500⟩) := by
  constructor <;> intro x hx <;> simp [action, serviceLookup_config h, hx]

/-- C1 (witness): the amended claim at a concrete submission. -/
theorem c1_witness :
    action env0 "finance" "q" (fun _ _ => .ok (.str "payload")) "t0" =
      ⟨.success (.str "payload") "finance", 200⟩ :=
  (c1_action_embeds_adapter_result env0 "finance" "q" "t0"
      (fun _ _ => .ok (.str "payload"))
      ⟨"", "Financial data and currency analysis"⟩ rfl).1 (.str "payload") rfl

/-- C2 (counterexample): a source-adapter failure is surfaced to the
caller as a synchronous 500 error response — it is not absorbed into any
per-source result record. -/
theorem c2_counterexample :
    action env0 "trends" "q" (fun _ _ => .error (.errorObj "ETIMEDOUT")) "t0" =
      ⟨.failure "Failed to connect to backend service" (some "ETIMEDOUT"), 500⟩ := rfl

/-- C2 (amended): for every source-adapter failure the `action` handler
catches the rejection and returns it synchronously as a 500 error response
carrying the failure details (there is no per-source result record to
absorb it into).  The 400 validation body arises exactly when the service
lookup yields `undefined` — a name missing from both the config's own
keys and `Object.prototype`; a prototype-chain name instead reaches the
adapter-call path and also ends in a 500. -/
theorem c2_adapter_failure_surfaced (env : Env) (service query now : String)
    (adapter : String → AdapterRequest → AdapterOutcome) (cfg : ServiceConfig)
    (e : ThrownValue)
    (hs : BACKEND_CONFIG env service = some cfg)
    (hf : adapter cfg.url ⟨query, now⟩ = .error e) :
    (action env service query adapter now).status = 500 ∧
    (action env service query adapter now).body =
      .failure "Failed to connect to backend service" (some (thrownDetails e)) ∧
    (∀ s2, serviceLookup env s2 = .missing →
      action env s2 query adapter now = ⟨.failure "Invalid service selected" none, 400⟩) ∧
    (∀ s3, serviceLookup env s3 = .protoProp →
      (action env s3 query adapter now).status = 500) := by
  refine ⟨by simp [action, serviceLookup_config hs, hf],
    by simp [action, serviceLookup_config hs, hf], ?_, ?_⟩
  · intro s2 h2
    simp [action, h2]
  · intro s3 h3
    simp [action, h3]

/-- C2 (witness): the amended claim at a concrete failing fetch. -/
theorem c2_witness :
    (action env0 "meta" "q" (fun _ _ => .error (.errorObj "ECONNREFUSED")) "t0").status = 500 :=
  (c2_adapter_failure_surfaced env0 "meta" "q" "t0"
      (fun _ _ => .error (.errorObj "ECONNREFUSED"))
      ⟨"", "Meta/Facebook social media analytics"⟩ (.errorObj "ECONNREFUSED") rfl rfl).1

/-- C3: for every job whose requested sources have all reached a terminal
per-source state, finalization marks the job `completed` exactly when at
least one source succeeded — with the combined insight present and
`degraded` true as soon as any source failed — and `failed` with no
combined insight when zero sources succeeded. -/
theorem c3_terminal_status (job : Job) (now : String)
    (_hterm : allSourcesTerminal job.sourceResults = true) :
    (1 ≤ succeededCount job.sourceResults →
      (finalizeJob job now).status = .completed ∧
      (finalizeJob job now).combinedInsight = some (aggregate job.sourceResults now) ∧
      ((∃ r ∈ job.sourceResults, r.state ≠ .ok) →
        (aggregate job.sourceResults now).degraded = true)) ∧
    (succeededCount job.sourceResults = 0 →
      (finalizeJob job now).status = .failed ∧
      (finalizeJob job now).combinedInsight = none) := by
  constructor
  · intro h1
    refine ⟨by simp [finalizeJob, h1], by simp [finalizeJob, h1], ?_⟩
    rintro ⟨r, hr, hne⟩
    simp only [aggregate]
    rw [List.any_eq_true]
    exact ⟨r, hr, decide_eq_true hne⟩
  · intro h0
    have hnot : ¬ 1 ≤ succeededCount job.sourceResults := by omega
    exact ⟨by simp [finalizeJob, hnot], by simp [finalizeJob, hnot]⟩

/-- C3 (witness): the claim at two concrete terminal jobs — one with a
success and a failure, one with only failures. -/
theorem c3_witness :
    (finalizeJob jobOkErr "t1").status = JobStatus.completed ∧
    (aggregate jobOkErr.sourceResults "t1").degraded = true ∧
    (finalizeJob jobAllFail "t1").status = JobStatus.failed ∧
    (finalizeJob jobAllFail "t1").combinedInsight = none := by
  have T1 := c3_terminal_status jobOkErr "t1" rfl
  have T2 := c3_terminal_status jobAllFail "t1" rfl
  have h1 := T1.1 (by decide)
  have h2 := T2.2 (by decide)
  refine ⟨h1.1, ?_, h2.1, h2.2⟩
  exact h1.2.2 ⟨⟨"news", .error, none, some "Unreachable", 2000⟩,
    by simp [jobOkErr], by decide⟩

/-- C4 (counterexample): `toString` names no recognized requested source,
yet the submission does not fail with a 4xx validation error: the
prototype-chain hit slips past the guard, the adapter call is attempted,
and the response is a 500. -/
theorem c4_counterexample :
    "toString" ∉ recognizedSources ∧
    attemptsAdapterCall env0 "toString" = true ∧
    (action env0 "toString" "q" (fun _ _ => .ok .null) "t0").status = 500 :=
  ⟨by decide, rfl, rfl⟩

/-- C4 (amended): a submission whose query is invalid is rejected without
creating anything, provided the invalid service name is one the property
access actually misses: when the lookup yields `undefined` the handler
returns the 400 validation body without any adapter call, and in the
modelled backend `submit` a query naming no recognized source or carrying
a malformed snapshot fails with `InvalidQuery` (a 400) and returns no job
record.  (An unrecognized name inherited from `Object.prototype` instead
reaches the adapter-call path and yields a 500.) -/
theorem c4_invalid_query_rejected (env : Env) (service query now : String)
    (adapter : String → AdapterRequest → AdapterOutcome)
    (store : JobStore) (q : Query) (newId : String)
    (hsrc : serviceLookup env service = .missing)
    (hq : validQuery q = false) :
    action env service query adapter now = ⟨.failure "Invalid service selected" none, 400⟩ ∧
    attemptsAdapterCall env service = false ∧
    actionRequest env service query now = none ∧
    submit store q newId now = .error .invalidQuery ∧
    apiErrorStatus .invalidQuery = 400 := by
  refine ⟨by simp [action, hsrc], by simp [attemptsAdapterCall, hsrc],
    by simp [actionRequest, hsrc], ?_, rfl⟩
  simp [submit, hq]

/-- C4 (witness): the amended claim at a concrete missed service name and
a concrete query naming no source. -/
theorem c4_witness :
    action env0 "database" "q" (fun _ _ => .ok .null) "t0" =
      ⟨.failure "Invalid service selected" none, 400⟩ ∧
    attemptsAdapterCall env0 "database" = false ∧
    actionRequest env0 "database" "q" "t0" = none ∧
    submit [] ⟨[], some ⟨[], []⟩, "hi"⟩ "job-1" "t0" = .error .invalidQuery ∧
    apiErrorStatus .invalidQuery = 400 :=
  c4_invalid_query_rejected env0 "database" "q" "t0" (fun _ _ => .ok .null)
    [] ⟨[], some ⟨[], []⟩, "hi"⟩ "job-1" rfl rfl

/-- C5: the polling operation returns the job store unchanged (it is
read-only), an id absent from the store — one never returned by `submit`,
which is the only producer of store entries — fails with `JobNotFound`,
and `JobNotFound` carries HTTP status 404. -/
theorem c5_status_readonly_notfound (store : JobStore) (id : String) :
    (statusOp store id).2 = store ∧
    (id ∉ store.map Prod.fst → (statusOp store id).1 = .error .jobNotFound) ∧
    apiErrorStatus .jobNotFound = 404 := by
  refine ⟨rfl, ?_, rfl⟩
  intro h
  have hfind : store.find? (fun p => p.1 == id) = none := by
    rw [List.find?_eq_none]
    intro p hp hbe
    exact h (by
      have he : p.1 = id := by simpa using hbe
      exact he ▸ List.mem_map_of_mem Prod.fst hp)
  simp [statusOp, jobStoreGet, hfind]

/-- C5 (witness): polling a fabricated id against a concrete one-job store
leaves the store unchanged and yields `JobNotFound`. -/
theorem c5_witness :
    (statusOp [("job-1", mkJob "job-1" sampleQuery "t0")] "ghost").2 =
      [("job-1", mkJob "job-1" sampleQuery "t0")] ∧
    (statusOp [("job-1", mkJob "job-1" sampleQuery "t0")] "ghost").1 =
      .error .jobNotFound :=
  ⟨(c5_status_readonly_notfound [("job-1", mkJob "job-1" sampleQuery "t0")] "ghost").1,
    (c5_status_readonly_notfound [("job-1", mkJob "job-1" sampleQuery "t0")] "ghost").2.1
      (by decide)⟩

/-- C6: a job's recomputed progress is an integer between 0 and 100 (it is
a natural number, so the lower bound is inherent), and it is monotonically
non-decreasing across every sequence of recorded adapter resolutions. -/
theorem c6_progress_bounds_monotone (rs : List SourceResult)
    (updates : List (String × TerminalOutcome × Nat)) :
    jobProgress rs ≤ 100 ∧
    jobProgress rs ≤ jobProgress (applyResolutions rs updates) := by
  refine ⟨jobProgress_le_100 rs, ?_⟩
  induction updates generalizing rs with
  | nil => exact Nat.le_refl _
  | cons u us ih =>
    exact Nat.le_trans (jobProgress_resolve rs u.1 u.2.1 u.2.2) (ih _)

/-- C7: the Aggregator is deterministic — on one and the same terminal
`sourceResults` mapping, every field of the combined insight other than
the explicitly time-stamped `generatedAt` is identical across runs, the
ordered `recommendations` sequence in particular. -/
theorem c7_aggregate_deterministic (rs : List SourceResult) (t1 t2 : String) :
    (aggregate rs t1).recommendations = (aggregate rs t2).recommendations ∧
    (aggregate rs t1).perSourceSummary = (aggregate rs t2).perSourceSummary ∧
    (aggregate rs t1).crossSourceCorrelations =
      (aggregate rs t2).crossSourceCorrelations ∧
    (aggregate rs t1).degraded = (aggregate rs t2).degraded :=
  ⟨rfl, rfl, rfl, rfl⟩

/-- C8: every adapter call made by the handler posts exactly the body
`{query, timestamp}`, and the adapter's reply is consumed as a JSON
payload (the 200 success body) or as a structured error (the 500 error
body). -/
theorem c8_adapter_request_shape (env : Env) (service query now : String)
    (adapter : String → AdapterRequest → AdapterOutcome) (u : String)
    (r : AdapterRequest)
    (h : actionRequest env service query now = some (u, r)) :
    r = ⟨query, now⟩ ∧
    (∀ d, adapter u r = .ok d →
      action env service query adapter now = ⟨.success d service, 200⟩) ∧
    (∀ e, adapter u r = .error e →
      action env service query adapter now =
        ⟨.failure "Failed to connect to backend service" (some (thrownDetails e)), 500⟩) := by
  unfold actionRequest at h
  cases hc : serviceLookup env service with
  | missing =>
    rw [hc] at h
    exact absurd h (by simp)
  | protoProp =>
    rw [hc] at h
    exact absurd h (by simp)
  | config cfg =>
    rw [hc] at h
    simp only [Option.some.injEq, Prod.mk.injEq] at h
    obtain ⟨hu, hr⟩ := h
    subst hu
    subst hr
    refine ⟨rfl, ?_, ?_⟩ <;> intro x hx <;> simp [action, hc, hx]

/-- C8 (witness): the claim at a concrete submission whose fetch
resolves. -/
theorem c8_witness :
    action env0 "news" "q" (fun _ _ => .ok (.num 7)) "t0" =
      ⟨.success (.num 7) "news", 200⟩ :=
  (c8_adapter_request_shape env0 "news" "q" "t0" (fun _ _ => .ok (.num 7))
      "" ⟨"q", "t0"⟩ rfl).2.1 (.num 7) rfl

/-- C9 (counterexample): a source's configuration consists of exactly a
base URL and a human-readable description, and the call to the adapter
carries exactly the query and the timestamp — no credential is configured
or sent for any source, so the configuration is not "one base URL and one
credential per source". -/
theorem c9_counterexample :
    serviceConfigFields = ["url", "description"] ∧
    "credential" ∉ serviceConfigFields ∧
    adapterRequestFields = ["query", "timestamp"] ∧
    "credential" ∉ adapterRequestFields := by decide

/-- C9 (amended): every source adapter is configured from environment
configuration with exactly one base URL per source (and a description, but
no credential), and the adapter call targets the configured base URL of
the selected source. -/
theorem c9_base_url_config (env : Env) (service query now : String)
    (cfg : ServiceConfig)
    (h : BACKEND_CONFIG env service = some cfg) :
    actionRequest env service query now = some (cfg.url, ⟨query, now⟩) ∧
    (BACKEND_CONFIG env "finance").map ServiceConfig.url =
      some (env.FINANCE_API_URL.getD "") ∧
    (BACKEND_CONFIG env "news").map ServiceConfig.url =
      some (env.NEWS_API_URL.getD "") ∧
    (BACKEND_CONFIG env "trends").map ServiceConfig.url =
      some (env.TRENDS_API_URL.getD "") ∧
    (BACKEND_CONFIG env "meta").map ServiceConfig.url =
      some (env.META_API_URL.getD "") ∧
    (BACKEND_CONFIG env "tiktok").map ServiceConfig.url =
      some (env.TIKTOK_API_URL.getD "") ∧
    (BACKEND_CONFIG env "weather").map ServiceConfig.url =
      some (env.WEATHER_API_URL.getD "") := by
  exact ⟨by simp [actionRequest, serviceLookup_config h], rfl, rfl, rfl, rfl, rfl, rfl⟩

/-- C9 (witness): with every variable set, the call for `tiktok` targets
the configured TikTok base URL. -/
theorem c9_witness :
    actionRequest envEx "tiktok" "q" "t0" =
      some ("https://tiktok.example", ⟨"q", "t0"⟩) :=
  (c9_base_url_config envEx "tiktok" "q" "t0"
    ⟨"https://tiktok.example", "TikTok engagement and trend analysis"⟩ rfl).1

/-- C10 (counterexample): the handler does not return a 400 validation
error for every name outside the six recognized sources: `toString` is
outside the set, yet it slips past the guard, the adapter call is
attempted, and the response is the 500 error body, not the 400 one. -/
theorem c10_counterexample :
    "toString" ∉ recognizedSources ∧
    action env0 "toString" "q" (fun _ _ => .error .otherValue) "t0" ≠
      ⟨.failure "Invalid service selected" none, 400⟩ ∧
    (action env0 "toString" "q" (fun _ _ => .error .otherValue) "t0").status = 500 ∧
    attemptsAdapterCall env0 "toString" = true := by
  refine ⟨by decide, ?_, rfl, rfl⟩
  simp [action, serviceLookup, BACKEND_CONFIG, objectPrototypeProps]

/-- C10 (amended): the own keys of the service table are exactly finance,
news, trends, meta, tiktok and weather.  A request naming a service the
property access misses — neither an own key nor a name inherited from
`Object.prototype` — gets the 400 validation body with no adapter call.
A recognized (own-key) service, even with its base-URL variable unset
(leaving the empty string), still gets the adapter call targeting the
configured URL, and a failure there returns a 500, not a 400.  A name
inherited from `Object.prototype` also slips past the guard: the call is
attempted with an unusable URL and the response is a 500, not a 400. -/
theorem c10_guard_behavior (env : Env) (service query now : String)
    (adapter : String → AdapterRequest → AdapterOutcome) :
    ((BACKEND_CONFIG env service).isSome ↔ service ∈ recognizedSources) ∧
    (service ∉ recognizedSources → service ∉ objectPrototypeProps →
      action env service query adapter now = ⟨.failure "Invalid service selected" none, 400⟩ ∧
      attemptsAdapterCall env service = false) ∧
    (∀ cfg, BACKEND_CONFIG env service = some cfg →
      actionRequest env service query now = some (cfg.url, ⟨query, now⟩) ∧
      attemptsAdapterCall env service = true ∧
      ∀ e, adapter cfg.url ⟨query, now⟩ = .error e →
        (action env service query adapter now).status = 500) ∧
    (service ∈ objectPrototypeProps → service ∉ recognizedSources →
      attemptsAdapterCall env service = true ∧
      (action env service query adapter now).status = 500) := by
  have hiff : (BACKEND_CONFIG env service).isSome ↔ service ∈ recognizedSources := by
    unfold BACKEND_CONFIG
    split <;> simp_all [recognizedSources]
  have hnone : service ∉ recognizedSources → BACKEND_CONFIG env service = none := by
    intro hmem
    cases hcc : BACKEND_CONFIG env service with
    | none => rfl
    | some c => exact absurd (hiff.mp (by simp [hcc])) hmem
  refine ⟨hiff, ?_, ?_, ?_⟩
  · intro hr hp
    have hu : serviceLookup env service = .missing := by
      simp [serviceLookup, hnone hr, hp]
    exact ⟨by simp [action, hu], by simp [attemptsAdapterCall, hu]⟩
  · intro cfg hcfg
    have hcl : serviceLookup env service = .config cfg := serviceLookup_config hcfg
    refine ⟨by simp [actionRequest, hcl], by simp [attemptsAdapterCall, hcl], ?_⟩
    intro e he
    simp [action, hcl, he]
  · intro hp hr
    have hpl : serviceLookup env service = .protoProp := by
      simp [serviceLookup, hnone hr, hp]
    exact ⟨by simp [attemptsAdapterCall, hpl], by simp [action, hpl]⟩

/-- C10 (witness): the amended claim at a concrete missed name
(`postgres`), at `weather` with its base-URL variable unset, and at the
prototype-chain name `toString`. -/
theorem c10_witness :
    ("postgres" ∉ recognizedSources ∧
      action env0 "postgres" "q" (fun _ _ => .error .otherValue) "t0" =
        ⟨.failure "Invalid service selected" none, 400⟩ ∧
      attemptsAdapterCall env0 "postgres" = false) ∧
    ("weather" ∈ recognizedSources ∧
      actionRequest env0 "weather" "q" "t0" = some ("", ⟨"q", "t0"⟩) ∧
      (action env0 "weather" "q" (fun _ _ => .error .otherValue) "t0").status = 500) ∧
    ("toString" ∈ objectPrototypeProps ∧
      attemptsAdapterCall env0 "toString" = true ∧
      (action env0 "toString" "q" (fun _ _ => .error .otherValue) "t0").status = 500) := by
  have T1 := c10_guard_behavior env0 "postgres" "q" "t0" (fun _ _ => .error .otherValue)
  have T2 := c10_guard_behavior env0 "weather" "q" "t0" (fun _ _ => .error .otherValue)
  have T3 := c10_guard_behavior env0 "toString" "q" "t0" (fun _ _ => .error .otherValue)
  have hnp : "postgres" ∉ recognizedSources := by decide
  have h1 := T1.2.1 hnp (by decide)
  have h2 := T2.2.2.1 ⟨"", "Weather data and forecasting"⟩ rfl
  have h3 := T3.2.2.2 (by decide) (by decide)
  exact ⟨⟨hnp, h1.1, h1.2⟩, ⟨by decide, h2.1, h2.2.2 .otherValue rfl⟩,
    ⟨by decide, h3.1, h3.2⟩⟩

end Visionly
